import Mathlib

/-!
Verification development for the asset-deletion registration engine of the
`dandi` command-line client (`dandi/delete.py`).  The Python module is
shallowly embedded: the `Deleter` dataclass becomes a Lean structure, its
mutating methods become state-passing functions returning the new state
together with an optional raised exception, and the external collaborators
(REST client, URL parser, local filesystem) are modelled as an explicit
`World` of oracle functions, per the contracts the module consumes.
-/

namespace Dandi

/-! ### String helpers (embedding Python string operations) -/

/-- Embeds Python `s.rstrip("/")`: remove every trailing `'/'` character. -/
def rstripSlash (s : String) : String :=
  String.mk ((s.data.reverse.dropWhile (fun c => c == '/')).reverse)

/-- Embeds `is_same_url` (delete.py line 224): compare two URL strings after
`rstrip("/")` on each side. -/
def is_same_url (url1 url2 : String) : Bool :=
  rstripSlash url1 == rstripSlash url2

/-- Removes at most one trailing `'/'` from a string.  This is the operation
the specification's words describe ("stripping one trailing slash"); it is
kept separate from `rstripSlash` so the two can be compared. -/
def dropOneSlash (s : String) : String :=
  if s.data.getLast? = some '/' then String.mk s.data.dropLast else s

/-- The endpoint-equality predicate asserted by the specification sentence:
two URLs are equal after removing at most one trailing slash from each side. -/
def spec_same_url_one (url1 url2 : String) : Bool :=
  (url1 == url2) || (dropOneSlash url1 == url2) ||
    (url1 == dropOneSlash url2) || (dropOneSlash url1 == dropOneSlash url2)

/-- Structurally recursive removal of all trailing `'/'` characters; a
specification-style restatement of `rstrip("/")` used to phrase the amended
endpoint-equality property without mirroring the implementation. -/
def stripTrail : List Char → List Char
  | [] => []
  | c :: cs =>
      match stripTrail cs with
      | [] => if c == '/' then [] else [c]
      | r => c :: r

/-- Embeds Python `s.startswith(t)` on the character-list representation. -/
def strStarts (s t : String) : Bool := t.data.isPrefixOf s.data

/-- Embeds Python `s.endswith("/")`. -/
def strEndsSlash (s : String) : Bool := s.data.getLast? == some '/'

/-- Whether `sub` occurs as a contiguous run inside `l`. -/
def subOccurs (sub : List Char) : List Char → Bool
  | [] => sub.isEmpty
  | c :: cs => sub.isPrefixOf (c :: cs) || subOccurs sub cs

/-- Whether the string `sub` occurs as a substring of `s`; used to formalise
"the error message names X". -/
def strMentions (s sub : String) : Bool := subOccurs sub.data s.data

/-- The single-quote character, by code point. -/
def pyQuote : String := String.mk [Char.ofNat 39]

/-- Embeds Python `repr` quoting of a path interpolated with `!r` in an
f-string (the repr of a simple string is the string in single quotes). -/
def pyRepr (s : String) : String := pyQuote ++ s ++ pyQuote

/-! ### Data model -/

/-- The draft-version constant `DRAFT` from `dandi/consts.py` (the mutable
head version of a dandiset). -/
def DRAFT : String := "draft"

/-- A remote asset as consumed by the module: a stable opaque identifier and
a POSIX-style path relative to the dandiset root. -/
structure RemoteAsset where
  identifier : String
  path : String
deriving DecidableEq

/-- A remote dandiset handle as consumed by the module: its identifier and
the assets of its draft version (through which `get_asset_by_path` and the
path-prefix enumeration answer). -/
structure RemoteDandiset where
  identifier : String
  assets : List RemoteAsset
deriving DecidableEq

/-- The REST client handle; the module only ever reads back its `api_url`
(set, slash-stripped, at construction). -/
structure DandiAPIClient where
  api_url : String
deriving DecidableEq

/-- A Python exception raised by an asset's `delete()` call, as captured by
`_process_asset`: its type name and its text. -/
structure PyExc where
  ty : String
  msg : String
deriving DecidableEq

/-- The exceptions the module raises or propagates. -/
inductive Err where
  | notFound (msg : String)
  | valueError (msg : String)
  | notImplemented (msg : String)
  | attributeError
  | runtimeError (msg : String)
  | unknownURL
deriving DecidableEq

/-- Result of `parse_dandi_url` as consumed by the module: the fields read
from a `ParsedDandiURL`, with `isDandiset` capturing the
`isinstance(parsed_url, DandisetURL)` test and `assets` the result of the
collaborator's `get_assets(client)` enumeration for that URL. -/
structure ParsedDandiURL where
  api_url : String
  dandiset_id : String
  version_id : Option String
  assets : List RemoteAsset
  isDandiset : Bool
deriving DecidableEq

/-- The external collaborators (REST service, URL parser, instance registry,
local filesystem), modelled as oracle functions per the contracts in the
module's imports.  `get_dandiset` is keyed by the client's (slash-stripped)
API URL and the dandiset identifier and answers with the draft-version
handle, or `none` for the collaborator's NotFoundError whose message is
`notFoundMsg`.  `find_local_asset` models delete.py's `find_local_asset`
(a filesystem walk locating the enclosing dandiset and the relative path,
raising RuntimeError when no dandiset root is found). -/
structure World where
  get_dandiset : String → String → Option RemoteDandiset
  notFoundMsg : String → String
  parse_dandi_url : String → Option ParsedDandiURL
  get_instance : String → String
  find_local_asset : String → Except Err (String × String)
  is_url : String → Bool

/-- The `Deleter` dataclass: accumulated registration state. -/
structure Deleter where
  client : Option DandiAPIClient := none
  dandiset : Option RemoteDandiset := none
  deleting_dandiset : Bool := false
  skip_missing : Bool := false
  remote_assets : List RemoteAsset := []
deriving DecidableEq

/-- Embeds `Deleter.__bool__`: the request is non-empty iff dataset-deletion
mode is set or the asset collection is non-empty. -/
def deleterBool (st : Deleter) : Bool :=
  st.deleting_dandiset || !st.remote_assets.isEmpty

/-- Embeds `RemoteDandiset.get_asset_by_path` per its contract: the asset of
the bound draft version with exactly the given path, if any. -/
def get_asset_by_path (d : RemoteDandiset) (asset_path : String) : Option RemoteAsset :=
  d.assets.find? (fun a => a.path == asset_path)

/-- Embeds the collaborator enumeration `get_assets_with_path_prefix` per its
contract: all assets of the draft version whose path starts with the given
string. -/
def get_assets_under (d : RemoteDandiset) (folder_path : String) : List RemoteAsset :=
  d.assets.filter (fun a => strStarts a.path folder_path)

/-! ### Error messages raised by the module (delete.py lines 49, 51, 76-78,
91-93, 103, 109-112) -/

/-- Message of the cross-instance mixing error (line 49). -/
def multiInstanceMsg : String :=
  "Cannot delete assets from multiple API instances at once"

/-- Message of the cross-dandiset mixing error (line 51). -/
def multiDandisetMsg : String :=
  "Cannot delete assets from multiple Dandisets at once"

/-- Message of the missing-asset error of `register_asset` (lines 76-78). -/
def assetNotFoundMsg (asset_path dandiset_id : String) : String :=
  "Asset at path " ++ pyRepr asset_path ++ " not found in Dandiset " ++ dandiset_id

/-- Message of the empty-folder error of `register_asset_folder`
(lines 91-93). -/
def folderNotFoundMsg (folder_path dandiset_id : String) : String :=
  "No assets under path " ++ pyRepr folder_path ++ " found in Dandiset " ++ dandiset_id

/-- Message of the zero-asset error of `register_assets_url` (line 103). -/
def urlNotFoundMsg (url : String) : String :=
  "No assets found for " ++ url

/-- Message of the version-scoped dataset-deletion error of `register_url`
(lines 109-112). -/
def versionDeleteMsg : String :=
  "Dandi API server does not support deletion of individual versions of a dandiset"

/-! ### The registration operations

Each method of the Python class becomes a function from the prior state to
the new state paired with the exception it raises, if any (Python mutations
made before a raise survive it, so the state at raise time is returned). -/

/-- Embeds `Deleter.set_dandiset` (lines 31-52).  On the first call the
client is constructed from the slash-stripped URL and the draft dandiset is
fetched (a collaborator NotFoundError is suppressed into `ok false` under
`skip_missing`, else re-raised); on later calls the requested pair must
match the bound one.  When the bound `dandiset` is `None`, reading
`self.dandiset.identifier` raises AttributeError, embedded as
`Err.attributeError`. -/
def set_dandiset (w : World) (api_url dandiset_id : String) (st : Deleter) :
    Deleter × Except Err Bool :=
  match st.client with
  | none =>
      match w.get_dandiset (rstripSlash api_url) dandiset_id with
      | some d =>
          ({ st with client := some ⟨rstripSlash api_url⟩, dandiset := some d }, .ok true)
      | none =>
          if st.skip_missing then
            ({ st with client := some ⟨rstripSlash api_url⟩ }, .ok false)
          else
            ({ st with client := some ⟨rstripSlash api_url⟩ },
              .error (.notFound (w.notFoundMsg dandiset_id)))
  | some c =>
      if is_same_url c.api_url api_url then
        match st.dandiset with
        | none => (st, .error .attributeError)
        | some d =>
            if d.identifier = dandiset_id then (st, .ok true)
            else (st, .error (.valueError multiDandisetMsg))
      else (st, .error (.valueError multiInstanceMsg))

/-- Embeds `Deleter.add_asset` (lines 54-58): append the asset unless one
with the same identifier is already present. -/
def add_asset (st : Deleter) (asset : RemoteAsset) : Deleter :=
  if st.remote_assets.any (fun a => a.identifier == asset.identifier) then st
  else { st with remote_assets := st.remote_assets ++ [asset] }

/-- Embeds `Deleter.register_dandiset` (lines 60-63). -/
def register_dandiset (w : World) (api_url dandiset_id : String) (st : Deleter) :
    Deleter × Option Err :=
  match set_dandiset w api_url dandiset_id st with
  | (st', .error e) => (st', some e)
  | (st', .ok false) => (st', none)
  | (st', .ok true) => ({ st' with deleting_dandiset := true }, none)

/-- Embeds `Deleter.register_asset` (lines 65-79).  `version_id` is accepted
but never read by the body. -/
def register_asset (w : World) (api_url dandiset_id version_id asset_path : String)
    (st : Deleter) : Deleter × Option Err :=
  match set_dandiset w api_url dandiset_id st with
  | (st', .error e) => (st', some e)
  | (st', .ok false) => (st', none)
  | (st', .ok true) =>
      match st'.dandiset with
      | none => (st', some .attributeError)
      | some d =>
          match get_asset_by_path d asset_path with
          | none =>
              if st'.skip_missing then (st', none)
              else (st', some (.notFound (assetNotFoundMsg asset_path dandiset_id)))
          | some a => (add_asset st' a, none)

/-- Embeds `Deleter.register_asset_folder` (lines 81-93).  `version_id` is
accepted but never read by the body. -/
def register_asset_folder (w : World) (api_url dandiset_id version_id folder_path : String)
    (st : Deleter) : Deleter × Option Err :=
  match set_dandiset w api_url dandiset_id st with
  | (st', .error e) => (st', some e)
  | (st', .ok false) => (st', none)
  | (st', .ok true) =>
      match st'.dandiset with
      | none => (st', some .attributeError)
      | some d =>
          let found := get_assets_under d folder_path
          if found.isEmpty && !st'.skip_missing then
            (found.foldl add_asset st',
              some (.notFound (folderNotFoundMsg folder_path dandiset_id)))
          else (found.foldl add_asset st', none)

/-- Embeds `Deleter.register_assets_url` (lines 95-103). -/
def register_assets_url (w : World) (url : String) (parsed_url : ParsedDandiURL)
    (st : Deleter) : Deleter × Option Err :=
  match set_dandiset w parsed_url.api_url parsed_url.dandiset_id st with
  | (st', .error e) => (st', some e)
  | (st', .ok false) => (st', none)
  | (st', .ok true) =>
      if parsed_url.assets.isEmpty && !st'.skip_missing then
        (parsed_url.assets.foldl add_asset st', some (.notFound (urlNotFoundMsg url)))
      else (parsed_url.assets.foldl add_asset st', none)

/-- Embeds `Deleter.register_url` (lines 105-117): parse the URL; a
dandiset-shaped URL with an explicit version raises NotImplementedError,
without one it registers whole-dataset deletion; any other shape defaults
the version to draft and registers the URL's assets. -/
def register_url (w : World) (url : String) (st : Deleter) : Deleter × Option Err :=
  match w.parse_dandi_url url with
  | none => (st, some .unknownURL)
  | some pu =>
      if pu.isDandiset then
        match pu.version_id with
        | some _ => (st, some (.notImplemented versionDeleteMsg))
        | none => register_dandiset w pu.api_url pu.dandiset_id st
      else
        match pu.version_id with
        | none => register_assets_url w url { pu with version_id := some DRAFT } st
        | some _ => register_assets_url w url pu st

/-- Embeds `Deleter.register_local_path_equivalent` (lines 119-128): map the
local path to its (dandiset id, relative path) equivalent, bind, then
delegate to the folder or single-asset registration according to the
trailing slash. -/
def register_local_path_equivalent (w : World) (instance_name filepath : String)
    (st : Deleter) : Deleter × Option Err :=
  match w.find_local_asset filepath with
  | .error e => (st, some e)
  | .ok (dandiset_id, asset_path) =>
      match set_dandiset w (w.get_instance instance_name) dandiset_id st with
      | (st', .error e) => (st', some e)
      | (st', .ok false) => (st', none)
      | (st', .ok true) =>
          if strEndsSlash asset_path then
            register_asset_folder w (w.get_instance instance_name) dandiset_id DRAFT
              asset_path st'
          else
            register_asset w (w.get_instance instance_name) dandiset_id DRAFT
              asset_path st'

/-- Embeds `Deleter.confirm` (lines 130-138): both prompt texts read
`self.dandiset.identifier` (AttributeError when unbound); the interactive
answer is the oracle `ans`. -/
def confirm (ans : Bool) (st : Deleter) : Except Err Bool :=
  match st.dandiset with
  | none => .error .attributeError
  | some _ => .ok ans

/-! ### Execution engine -/

/-- Lexicographic comparison of character lists by code point, embedding
Python string comparison for `sorted(..., key=attrgetter("path"))`. -/
def lexLe : List Char → List Char → Bool
  | [], _ => true
  | _ :: _, [] => false
  | a :: as, b :: bs =>
      if a.toNat < b.toNat then true
      else if b.toNat < a.toNat then false
      else lexLe as bs

/-- String comparison by code points (Python `<=` on str). -/
def strLe (s t : String) : Bool := lexLe s.data t.data

/-- Insertion step of the path-ordered sort. -/
def insertByPath (a : RemoteAsset) : List RemoteAsset → List RemoteAsset
  | [] => [a]
  | b :: l => if strLe a.path b.path then a :: b :: l else b :: insertByPath a l

/-- Embeds `sorted(self.remote_assets, key=attrgetter("path"))`: the assets
reordered by ascending path. -/
def sortByPath (l : List RemoteAsset) : List RemoteAsset := l.foldr insertByPath []

/-- Outcome oracle for the collaborator call `asset.delete()`, keyed by the
asset identifier: `none` for success, `some e` for a raised exception. -/
def DeleteOracle : Type := String → Option PyExc

/-- The `exception-type: text` rendering captured by `_process_asset`
(line 153). -/
def excText (e : PyExc) : String := e.ty ++ ": " ++ e.msg

/-- Embeds `Deleter._process_asset` (lines 148-155): the stream of
status/message updates for one asset — `Deleting`, then `Error` with the
captured exception text or `Deleted`; the exception is never re-raised. -/
def process_asset (oracle : DeleteOracle) (a : RemoteAsset) :
    List (String × Option String) :=
  ("Deleting", none) ::
    (match oracle a.identifier with
     | some e => [("Error", some (excText e))]
     | none => [("Deleted", none)])

/-- A status record as printed by the debug execution path: the asset path
merged with one status/message update. -/
structure Record where
  path : String
  status : String
  message : Option String
deriving DecidableEq

/-- The records of one asset: each `_process_asset` update tagged with the
asset's path. -/
def assetRecords (oracle : DeleteOracle) (a : RemoteAsset) : List Record :=
  (process_asset oracle a).map (fun sm => ⟨a.path, sm.1, sm.2⟩)

/-- Embeds `Deleter.process_assets_debug` (lines 164-166): per asset in
path-sorted order, the stream of path-tagged status records. -/
def process_assets_debug (oracle : DeleteOracle) (st : Deleter) : List (List Record) :=
  (sortByPath st.remote_assets).map (assetRecords oracle)

/-- All records emitted by a debug-mode execution, flattened in order. -/
def debugRecords (oracle : DeleteOracle) (st : Deleter) : List Record :=
  (process_assets_debug oracle st).flatten

/-! ### The `delete` entry point -/

/-- A destructive network call issued by the execution phase. -/
inductive DeleteCall where
  | dandisetDelete (dandiset_id : String)
  | assetDelete (identifier : String)
deriving DecidableEq

/-- The registration loop of `delete` (lines 178-182): each path is routed
to `register_url` or `register_local_path_equivalent`; a raised exception
aborts the loop. -/
def registerAll (w : World) (dandi_instance : String) :
    List String → Deleter → Deleter × Option Err
  | [], st => (st, none)
  | p :: ps, st =>
      match
        (if w.is_url p then register_url w p st
         else register_local_path_equivalent w dandi_instance p st) with
      | (st', some e) => (st', some e)
      | (st', none) => registerAll w dandi_instance ps st'

/-- The destructive calls of the execution phase (lines 184-200): in
dataset mode one `dandiset.delete()` (an AttributeError when no dandiset is
bound, as in `delete_dandiset`'s `self.dandiset.delete()`); otherwise one
`asset.delete()` per registered asset in path-sorted order — issued by both
the tabular and the debug path. -/
def execCalls (st : Deleter) : Deleter × Option Err × List DeleteCall :=
  if st.deleting_dandiset then
    match st.dandiset with
    | none => (st, some .attributeError, [])
    | some d => (st, none, [.dandisetDelete d.identifier])
  else
    (st, none, (sortByPath st.remote_assets).map (fun a => .assetDelete a.identifier))

/-- Embeds the `delete` entry point (lines 169-200), with the interactive
confirmation answer as the oracle `confirmAns`: register every input, then,
if the request is non-empty and either `force` is set or the user confirms,
issue the destructive calls.  `devel_debug` and `jobs` only choose how
progress is displayed and do not change the calls issued. -/
def delete (w : World) (confirmAns : Bool) (paths : List String)
    (dandi_instance : String) (devel_debug : Bool) (jobs : Option Nat)
    (force : Bool) (skip_missing : Bool) : Deleter × Option Err × List DeleteCall :=
  match registerAll w dandi_instance paths { skip_missing := skip_missing } with
  | (st, some e) => (st, some e, [])
  | (st, none) =>
      if deleterBool st then
        if force then execCalls st
        else
          match confirm confirmAns st with
          | .error e => (st, some e, [])
          | .ok true => execCalls st
          | .ok false => (st, none, [])
      else (st, none, [])

/-! ### Registration sequences

The five public registration entry points of the class, as an operation
language, so that properties of arbitrary registration sequences can be
stated. -/

/-- One registration call on a `Deleter`. -/
inductive Op where
  | opAsset (api_url dandiset_id version_id asset_path : String)
  | opFolder (api_url dandiset_id version_id folder_path : String)
  | opAssetsUrl (url : String) (parsed_url : ParsedDandiURL)
  | opUrl (url : String)
  | opLocal (instance_name filepath : String)
  | opDandiset (api_url dandiset_id : String)

/-- Dispatch one registration call to the corresponding method. -/
def applyOp (w : World) : Op → Deleter → Deleter × Option Err
  | .opAsset a i v p, st => register_asset w a i v p st
  | .opFolder a i v p, st => register_asset_folder w a i v p st
  | .opAssetsUrl u pu, st => register_assets_url w u pu st
  | .opUrl u, st => register_url w u st
  | .opLocal n f, st => register_local_path_equivalent w n f st
  | .opDandiset a i, st => register_dandiset w a i st

/-- Run a sequence of registration calls; a raised exception stops the
sequence (as it aborts the CLI run), returning the state at raise time. -/
def runOps (w : World) : List Op → Deleter → Deleter × Option Err
  | [], st => (st, none)
  | o :: os, st =>
      match applyOp w o st with
      | (st', some e) => (st', some e)
      | (st', none) => runOps w os st'

/-- The identifiers of the registered assets are pairwise distinct. -/
def idsNodup (st : Deleter) : Prop :=
  (st.remote_assets.map RemoteAsset.identifier).Nodup

/-- A dandiset is bound whenever the request is non-empty: the state
invariant the execution phase relies on. -/
def boundInv (st : Deleter) : Prop :=
  st.dandiset = none → st.deleting_dandiset = false ∧ st.remote_assets = []

/-- The combined state invariant preserved by every registration call. -/
def Inv (st : Deleter) : Prop := idsNodup st ∧ boundInv st

/-- Whether a record carries the given status. -/
def hasStatus (s : String) (r : Record) : Bool := r.status == s

/-! ### Concrete example data for witnesses and counterexamples -/

/-- Example asset 1 of the example dandiset. -/
def exA1 : RemoteAsset := ⟨"id1", "sub-01/a.nwb"⟩

/-- Example asset 2 of the example dandiset. -/
def exA2 : RemoteAsset := ⟨"id2", "sub-01/b.nwb"⟩

/-- An example dandiset with two assets. -/
def exDandiset : RemoteDandiset := ⟨"000001", [exA1, exA2]⟩

/-- An asset-scope parsed URL carrying one asset of the example dandiset. -/
def exAssetsPU : ParsedDandiURL :=
  { api_url := "https://api.example", dandiset_id := "000001",
    version_id := some "draft", assets := [exA1], isDandiset := false }

/-- An asset-scope parsed URL carrying no assets. -/
def exEmptyPU : ParsedDandiURL :=
  { api_url := "https://api.example", dandiset_id := "000001",
    version_id := some "draft", assets := [], isDandiset := false }

/-- A whole-dandiset parsed URL without an explicit version. -/
def exDsPU : ParsedDandiURL :=
  { api_url := "https://api.example", dandiset_id := "000001",
    version_id := none, assets := [], isDandiset := true }

/-- A whole-dandiset parsed URL with an explicit version. -/
def exDsVerPU : ParsedDandiURL :=
  { api_url := "https://api.example", dandiset_id := "000001",
    version_id := some "0.210831.2033", assets := [], isDandiset := true }

/-- An example environment: one API instance serving `exDandiset` and a URL
table with a dandiset URL, a versioned dandiset URL and an asset URL. -/
def exWorld : World :=
  { get_dandiset := fun u i =>
      if u = "https://api.example" && i = "000001" then some exDandiset else none,
    notFoundMsg := fun i => "No such dandiset: " ++ i,
    parse_dandi_url := fun u =>
      if u = "https://u-ds" then some exDsPU
      else if u = "https://u-dsv" then some exDsVerPU
      else if u = "https://u-assets" then some exAssetsPU
      else none,
    get_instance := fun _ => "https://api.example",
    find_local_asset := fun fp =>
      if fp = "/data/ds/sub-01/a.nwb" then .ok ("000001", "sub-01/a.nwb")
      else .error (.runtimeError "Found no dandiset.yaml anywhere"),
    is_url := fun u => strStarts u "https://" }

/-- A fresh `Deleter` with `skip_missing` off. -/
def exFresh : Deleter := { skip_missing := false }

/-- A fresh `Deleter` with `skip_missing` on. -/
def exFreshSkip : Deleter := { skip_missing := true }

/-- A `Deleter` bound to the example dandiset, `skip_missing` off. -/
def exBound : Deleter :=
  { client := some ⟨"https://api.example"⟩, dandiset := some exDandiset,
    deleting_dandiset := false, skip_missing := false, remote_assets := [] }

/-- A `Deleter` bound to the example dandiset, `skip_missing` on. -/
def exBoundSkip : Deleter :=
  { client := some ⟨"https://api.example"⟩, dandiset := some exDandiset,
    deleting_dandiset := false, skip_missing := true, remote_assets := [] }

/-- The half-bound state reached by a skipped binding to a nonexistent
dandiset: client set, dandiset unset. -/
def exHalfBound : Deleter :=
  { client := some ⟨"https://api.other"⟩, dandiset := none,
    deleting_dandiset := false, skip_missing := true, remote_assets := [] }

/-- An outcome oracle under which exactly the delete of `exA2` raises. -/
def exOracle : DeleteOracle :=
  fun i => if i = "id2" then some ⟨"ValueError", "boom"⟩ else none

/-- A `Deleter` with both example assets registered. -/
def exTwoAssets : Deleter :=
  { client := some ⟨"https://api.example"⟩, dandiset := some exDandiset,
    deleting_dandiset := false, skip_missing := false, remote_assets := [exA1, exA2] }

/-- The state after registering the asset URL `https://u-assets` on a fresh
`Deleter`: bound, with `exA1` accumulated. -/
def exBoundWithA1 : Deleter :=
  { client := some ⟨"https://api.example"⟩, dandiset := some exDandiset,
    deleting_dandiset := false, skip_missing := false, remote_assets := [exA1] }

/-! ### Helper lemmas -/

theorem add_asset_fields (st : Deleter) (a : RemoteAsset) :
    (add_asset st a).client = st.client ∧ (add_asset st a).dandiset = st.dandiset ∧
    (add_asset st a).deleting_dandiset = st.deleting_dandiset ∧
    (add_asset st a).skip_missing = st.skip_missing := by
  unfold add_asset; split <;> simp

theorem foldl_add_fields (l : List RemoteAsset) (st : Deleter) :
    (l.foldl add_asset st).client = st.client ∧
    (l.foldl add_asset st).dandiset = st.dandiset ∧
    (l.foldl add_asset st).deleting_dandiset = st.deleting_dandiset ∧
    (l.foldl add_asset st).skip_missing = st.skip_missing := by
  induction l generalizing st with
  | nil => simp
  | cons a l ih =>
      have h := add_asset_fields st a
      have h' := ih (add_asset st a)
      simp only [List.foldl_cons] at *
      exact ⟨h'.1.trans h.1, h'.2.1.trans h.2.1, h'.2.2.1.trans h.2.2.1,
             h'.2.2.2.trans h.2.2.2⟩

theorem add_asset_nodup (st : Deleter) (a : RemoteAsset) (h : idsNodup st) :
    idsNodup (add_asset st a) := by
  unfold add_asset
  split
  next hmem => exact h
  next hmem =>
    unfold idsNodup at *
    simp only [List.map_append, List.map_cons, List.map_nil, List.nodup_append]
    refine ⟨h, List.nodup_singleton _, ?_⟩
    intro x hx hy
    simp only [List.mem_singleton] at hy
    subst hy
    simp only [List.mem_map] at hx
    obtain ⟨b, hb, hbeq⟩ := hx
    simp only [List.any_eq_true, not_exists, not_and, Bool.not_eq_true] at hmem
    have hb' := hmem b hb
    rw [hbeq] at hb'
    simp at hb'

theorem foldl_add_nodup (l : List RemoteAsset) (st : Deleter) (h : idsNodup st) :
    idsNodup (l.foldl add_asset st) := by
  induction l generalizing st with
  | nil => exact h
  | cons a l ih => exact ih (add_asset st a) (add_asset_nodup st a h)

theorem add_asset_of_mem (st : Deleter) (a : RemoteAsset)
    (h : a.identifier ∈ st.remote_assets.map RemoteAsset.identifier) :
    add_asset st a = st := by
  unfold add_asset
  split
  next hmem => rfl
  next hmem =>
    exfalso
    simp only [List.any_eq_true, not_exists, not_and, Bool.not_eq_true] at hmem
    simp only [List.mem_map] at h
    obtain ⟨b, hb, hbeq⟩ := h
    have hb' := hmem b hb
    rw [hbeq] at hb'
    simp at hb'

theorem set_dandiset_state (w : World) (au di : String) (st st' : Deleter)
    (r : Except Err Bool) (h : set_dandiset w au di st = (st', r)) :
    st'.remote_assets = st.remote_assets ∧
    st'.deleting_dandiset = st.deleting_dandiset ∧
    st'.skip_missing = st.skip_missing ∧
    (r = .ok true → st'.dandiset.isSome) ∧
    (st'.dandiset = st.dandiset ∨ st'.dandiset.isSome) := by
  unfold set_dandiset at h
  split at h
  · split at h
    · injection h with h1 h2; subst h1; subst h2; simp
    · split at h
      · injection h with h1 h2; subst h1; subst h2; simp
      · injection h with h1 h2; subst h1; subst h2; simp
  · split at h
    · split at h
      · injection h with h1 h2; subst h1; subst h2; simp
      · split at h
        · injection h with h1 h2; subst h1; subst h2
          rename_i d _ _
          simp_all
        · injection h with h1 h2; subst h1; subst h2; simp
    · injection h with h1 h2; subst h1; subst h2; simp

theorem state_inv_transfer (st s1 : Deleter)
    (ha : s1.remote_assets = st.remote_assets)
    (hf : s1.deleting_dandiset = st.deleting_dandiset)
    (hd : s1.dandiset = st.dandiset ∨ s1.dandiset.isSome) (hi : Inv st) : Inv s1 := by
  constructor
  · unfold idsNodup
    rw [ha]
    exact hi.1
  · intro hnone
    rcases hd with hd | hd
    · rw [hnone] at hd
      have h2 := hi.2 hd.symm
      rw [hf, ha]
      exact h2
    · rw [hnone] at hd
      simp at hd

theorem inv_of_some (s : Deleter) (hd : s.dandiset.isSome) (hn : idsNodup s) : Inv s := by
  refine ⟨hn, fun hnone => ?_⟩
  rw [hnone] at hd
  simp at hd

theorem register_dandiset_inv (w : World) (au di : String) (st st' : Deleter)
    (e : Option Err) (h : register_dandiset w au di st = (st', e)) (hi : Inv st) :
    Inv st' := by
  unfold register_dandiset at h
  split at h
  · rename_i s1 e1 heq
    obtain ⟨ha, hf, hsk, hok, hd⟩ := set_dandiset_state w au di st s1 (.error e1) heq
    injection h with h1 h2
    subst h1
    exact state_inv_transfer st s1 ha hf hd hi
  · rename_i s1 heq
    obtain ⟨ha, hf, hsk, hok, hd⟩ := set_dandiset_state w au di st s1 (.ok false) heq
    injection h with h1 h2
    subst h1
    exact state_inv_transfer st s1 ha hf hd hi
  · rename_i s1 heq
    obtain ⟨ha, hf, hsk, hok, hd⟩ := set_dandiset_state w au di st s1 (.ok true) heq
    have hsome : s1.dandiset.isSome := hok rfl
    injection h with h1 h2
    subst h1
    refine inv_of_some _ (by simpa using hsome) ?_
    unfold idsNodup
    simpa [ha] using hi.1

theorem register_asset_inv (w : World) (au di v p : String) (st st' : Deleter)
    (e : Option Err) (h : register_asset w au di v p st = (st', e)) (hi : Inv st) :
    Inv st' := by
  unfold register_asset at h
  split at h
  · rename_i s1 e1 heq
    obtain ⟨ha, hf, hsk, hok, hd⟩ := set_dandiset_state w au di st s1 (.error e1) heq
    injection h with h1 h2
    subst h1
    exact state_inv_transfer st s1 ha hf hd hi
  · rename_i s1 heq
    obtain ⟨ha, hf, hsk, hok, hd⟩ := set_dandiset_state w au di st s1 (.ok false) heq
    injection h with h1 h2
    subst h1
    exact state_inv_transfer st s1 ha hf hd hi
  · rename_i s1 heq
    obtain ⟨ha, hf, hsk, hok, hd⟩ := set_dandiset_state w au di st s1 (.ok true) heq
    have hsome : s1.dandiset.isSome := hok rfl
    have hn1 : idsNodup s1 := by unfold idsNodup; simpa [ha] using hi.1
    have hinv1 : Inv s1 := inv_of_some s1 hsome hn1
    split at h
    · injection h with h1 h2
      subst h1
      exact hinv1
    · rename_i d heq2
      split at h
      · split at h
        · injection h with h1 h2
          subst h1
          exact hinv1
        · injection h with h1 h2
          subst h1
          exact hinv1
      · rename_i a heq3
        injection h with h1 h2
        subst h1
        refine inv_of_some _ ?_ (add_asset_nodup s1 a hn1)
        simpa [(add_asset_fields s1 a).2.1] using hsome

theorem register_asset_folder_inv (w : World) (au di v p : String) (st st' : Deleter)
    (e : Option Err) (h : register_asset_folder w au di v p st = (st', e)) (hi : Inv st) :
    Inv st' := by
  unfold register_asset_folder at h
  split at h
  · rename_i s1 e1 heq
    obtain ⟨ha, hf, hsk, hok, hd⟩ := set_dandiset_state w au di st s1 (.error e1) heq
    injection h with h1 h2
    subst h1
    exact state_inv_transfer st s1 ha hf hd hi
  · rename_i s1 heq
    obtain ⟨ha, hf, hsk, hok, hd⟩ := set_dandiset_state w au di st s1 (.ok false) heq
    injection h with h1 h2
    subst h1
    exact state_inv_transfer st s1 ha hf hd hi
  · rename_i s1 heq
    obtain ⟨ha, hf, hsk, hok, hd⟩ := set_dandiset_state w au di st s1 (.ok true) heq
    have hsome : s1.dandiset.isSome := hok rfl
    have hn1 : idsNodup s1 := by unfold idsNodup; simpa [ha] using hi.1
    have hinv1 : Inv s1 := inv_of_some s1 hsome hn1
    split at h
    · injection h with h1 h2
      subst h1
      exact hinv1
    · rename_i d heq2
      dsimp only [] at h
      split at h
      · injection h with h1 h2
        subst h1
        refine inv_of_some _ ?_ (foldl_add_nodup _ s1 hn1)
        simpa [(foldl_add_fields (get_assets_under d p) s1).2.1] using hsome
      · injection h with h1 h2
        subst h1
        refine inv_of_some _ ?_ (foldl_add_nodup _ s1 hn1)
        simpa [(foldl_add_fields (get_assets_under d p) s1).2.1] using hsome

theorem register_assets_url_inv (w : World) (u : String) (pu : ParsedDandiURL)
    (st st' : Deleter) (e : Option Err) (h : register_assets_url w u pu st = (st', e))
    (hi : Inv st) : Inv st' := by
  unfold register_assets_url at h
  split at h
  · rename_i s1 e1 heq
    obtain ⟨ha, hf, hsk, hok, hd⟩ :=
      set_dandiset_state w pu.api_url pu.dandiset_id st s1 (.error e1) heq
    injection h with h1 h2
    subst h1
    exact state_inv_transfer st s1 ha hf hd hi
  · rename_i s1 heq
    obtain ⟨ha, hf, hsk, hok, hd⟩ :=
      set_dandiset_state w pu.api_url pu.dandiset_id st s1 (.ok false) heq
    injection h with h1 h2
    subst h1
    exact state_inv_transfer st s1 ha hf hd hi
  · rename_i s1 heq
    obtain ⟨ha, hf, hsk, hok, hd⟩ :=
      set_dandiset_state w pu.api_url pu.dandiset_id st s1 (.ok true) heq
    have hsome : s1.dandiset.isSome := hok rfl
    have hn1 : idsNodup s1 := by unfold idsNodup; simpa [ha] using hi.1
    split at h
    · injection h with h1 h2
      subst h1
      refine inv_of_some _ ?_ (foldl_add_nodup _ s1 hn1)
      simpa [(foldl_add_fields pu.assets s1).2.1] using hsome
    · injection h with h1 h2
      subst h1
      refine inv_of_some _ ?_ (foldl_add_nodup _ s1 hn1)
      simpa [(foldl_add_fields pu.assets s1).2.1] using hsome

theorem register_url_inv (w : World) (u : String) (st st' : Deleter) (e : Option Err)
    (h : register_url w u st = (st', e)) (hi : Inv st) : Inv st' := by
  unfold register_url at h
  split at h
  · injection h with h1 h2
    subst h1
    exact hi
  · rename_i pu heq
    split at h
    · split at h
      · injection h with h1 h2
        subst h1
        exact hi
      · exact register_dandiset_inv w pu.api_url pu.dandiset_id st st' e h hi
    · split at h
      · exact register_assets_url_inv w u _ st st' e h hi
      · exact register_assets_url_inv w u pu st st' e h hi

theorem register_local_path_equivalent_inv (w : World) (n f : String) (st st' : Deleter)
    (e : Option Err) (h : register_local_path_equivalent w n f st = (st', e))
    (hi : Inv st) : Inv st' := by
  unfold register_local_path_equivalent at h
  split at h
  · injection h with h1 h2
    subst h1
    exact hi
  · rename_i di p heq
    split at h
    · rename_i s1 e1 heq2
      obtain ⟨ha, hf, hsk, hok, hd⟩ :=
        set_dandiset_state w (w.get_instance n) di st s1 (.error e1) heq2
      injection h with h1 h2
      subst h1
      exact state_inv_transfer st s1 ha hf hd hi
    · rename_i s1 heq2
      obtain ⟨ha, hf, hsk, hok, hd⟩ :=
        set_dandiset_state w (w.get_instance n) di st s1 (.ok false) heq2
      injection h with h1 h2
      subst h1
      exact state_inv_transfer st s1 ha hf hd hi
    · rename_i s1 heq2
      obtain ⟨ha, hf, hsk, hok, hd⟩ :=
        set_dandiset_state w (w.get_instance n) di st s1 (.ok true) heq2
      have hinv1 : Inv s1 :=
        inv_of_some s1 (hok rfl) (by unfold idsNodup; simpa [ha] using hi.1)
      split at h
      · exact register_asset_folder_inv w (w.get_instance n) di DRAFT p s1 st' e h hinv1
      · exact register_asset_inv w (w.get_instance n) di DRAFT p s1 st' e h hinv1

theorem applyOp_inv (w : World) (o : Op) (st st' : Deleter) (e : Option Err)
    (h : applyOp w o st = (st', e)) (hi : Inv st) : Inv st' := by
  cases o with
  | opAsset a i v p => exact register_asset_inv w a i v p st st' e h hi
  | opFolder a i v p => exact register_asset_folder_inv w a i v p st st' e h hi
  | opAssetsUrl u pu => exact register_assets_url_inv w u pu st st' e h hi
  | opUrl u => exact register_url_inv w u st st' e h hi
  | opLocal n f => exact register_local_path_equivalent_inv w n f st st' e h hi
  | opDandiset a i => exact register_dandiset_inv w a i st st' e h hi

theorem runOps_inv (w : World) (ops : List Op) (st : Deleter) (hi : Inv st) :
    Inv (runOps w ops st).1 := by
  induction ops generalizing st with
  | nil => exact hi
  | cons o os ih =>
      unfold runOps
      rcases hap : applyOp w o st with ⟨st', e⟩
      have hi' := applyOp_inv w o st st' e hap hi
      cases e with
      | none => simpa [hap] using ih st' hi'
      | some e' => simpa [hap] using hi'

theorem registerAll_inv (w : World) (n : String) (ps : List String) (st : Deleter)
    (hi : Inv st) : Inv (registerAll w n ps st).1 := by
  induction ps generalizing st with
  | nil => exact hi
  | cons p ps ih =>
      unfold registerAll
      rcases hap : (if w.is_url p then register_url w p st
          else register_local_path_equivalent w n p st) with ⟨st', e⟩
      have hi' : Inv st' := by
        by_cases hu : w.is_url p
        · rw [if_pos hu] at hap
          exact register_url_inv w p st st' e hap hi
        · rw [if_neg hu] at hap
          exact register_local_path_equivalent_inv w n p st st' e hap hi
      cases e with
      | none => simpa [hap] using ih st' hi'
      | some e' => simpa [hap] using hi'

theorem initial_inv (sm : Bool) : Inv { skip_missing := sm } := by
  constructor
  · unfold idsNodup
    simp
  · intro h
    exact ⟨rfl, rfl⟩

/-! ### Substring, sorting and record-counting lemmas -/

theorem str_ext {s t : String} (h : s.data = t.data) : s = t := by
  cases s
  cases t
  exact congrArg String.mk h

theorem isPrefixOf_append_self (sub q : List Char) : sub.isPrefixOf (sub ++ q) = true := by
  induction sub with
  | nil => simp [List.isPrefixOf]
  | cons c cs ih => simp [List.isPrefixOf, ih]

theorem subOccurs_append (sub l1 l2 : List Char) :
    subOccurs sub (l1 ++ (sub ++ l2)) = true := by
  induction l1 with
  | nil =>
      cases hs : sub with
      | nil => cases l2 <;> simp [subOccurs]
      | cons c cs => simp [subOccurs, isPrefixOf_append_self]
  | cons a l1 ih => simp [subOccurs, ih]

theorem strMentions_of_data (m sub : String) (l1 l2 : List Char)
    (h : m.data = l1 ++ (sub.data ++ l2)) : strMentions m sub = true := by
  unfold strMentions
  rw [h]
  exact subOccurs_append sub.data l1 l2

theorem stripTrail_eq_dropWhile (l : List Char) :
    stripTrail l = (l.reverse.dropWhile (fun c => c == '/')).reverse := by
  induction l with
  | nil => rfl
  | cons c cs ih =>
      show stripTrail (c :: cs) = _
      rw [List.reverse_cons, List.dropWhile_append]
      by_cases hcs : (cs.reverse.dropWhile (fun c => c == '/')).isEmpty = true
      · rw [if_pos hcs]
        rw [List.isEmpty_iff] at hcs
        unfold stripTrail
        rw [ih, hcs]
        simp only [List.reverse_nil]
        by_cases hc : (c == '/') = true
        · simp [List.dropWhile, hc]
        · simp [List.dropWhile, hc]
      · rw [if_neg hcs]
        have hne : cs.reverse.dropWhile (fun c => c == '/') ≠ [] := by
          intro hnil
          rw [hnil] at hcs
          simp at hcs
        unfold stripTrail
        rw [ih]
        rcases hdw : cs.reverse.dropWhile (fun c => c == '/') with _ | ⟨x, xs⟩
        · exact absurd hdw hne
        · simp [List.reverse_cons]

theorem rstripSlash_eq_stripTrail (s : String) :
    rstripSlash s = String.mk (stripTrail s.data) := by
  unfold rstripSlash
  rw [stripTrail_eq_dropWhile]

theorem insertByPath_perm (a : RemoteAsset) (l : List RemoteAsset) :
    (insertByPath a l).Perm (a :: l) := by
  induction l with
  | nil => simp [insertByPath]
  | cons b l ih =>
      simp only [insertByPath]
      split
      · exact List.Perm.refl _
      · exact (ih.cons b).trans (List.Perm.swap a b l)

theorem sortByPath_perm (l : List RemoteAsset) : (sortByPath l).Perm l := by
  induction l with
  | nil => exact List.Perm.refl _
  | cons a l ih => exact (insertByPath_perm a (sortByPath l)).trans (ih.cons a)

theorem assetRecords_counts (oracle : DeleteOracle) (a : RemoteAsset) :
    (assetRecords oracle a).countP (hasStatus "Deleting") = 1 ∧
    (assetRecords oracle a).countP (hasStatus "Deleted") =
      (if (oracle a.identifier).isNone then 1 else 0) ∧
    (assetRecords oracle a).countP (hasStatus "Error") =
      (if (oracle a.identifier).isSome then 1 else 0) := by
  unfold assetRecords process_asset
  cases h : oracle a.identifier <;>
    simp [h, List.countP_cons, List.countP_nil, hasStatus]

theorem recordsOf_counts (oracle : DeleteOracle) (l : List RemoteAsset) :
    ((l.map (assetRecords oracle)).flatten.countP (hasStatus "Deleting") = l.length) ∧
    ((l.map (assetRecords oracle)).flatten.countP (hasStatus "Deleted") =
      l.countP (fun a => (oracle a.identifier).isNone)) ∧
    ((l.map (assetRecords oracle)).flatten.countP (hasStatus "Error") =
      l.countP (fun a => (oracle a.identifier).isSome)) := by
  induction l with
  | nil => simp
  | cons a l ih =>
      obtain ⟨h1, h2, h3⟩ := assetRecords_counts oracle a
      simp only [List.map_cons, List.flatten_cons, List.countP_append, List.countP_cons,
        List.length_cons, h1, h2, h3, ih.1, ih.2.1, ih.2.2]
      refine ⟨by omega, ?_, ?_⟩ <;> cases h : oracle a.identifier <;> simp [h] <;> omega

theorem error_record_source (oracle : DeleteOracle) (l : List RemoteAsset) (r : Record)
    (hr : r ∈ (l.map (assetRecords oracle)).flatten) (he : r.status = "Error") :
    ∃ a e, a ∈ l ∧ oracle a.identifier = some e ∧
      r = ⟨a.path, "Error", some (excText e)⟩ := by
  induction l with
  | nil => simp at hr
  | cons a l ih =>
      simp only [List.map_cons, List.flatten_cons, List.mem_append] at hr
      rcases hr with hr | hr
      · unfold assetRecords process_asset at hr
        cases h : oracle a.identifier with
        | none =>
            rw [h] at hr
            simp only [List.map_cons, List.map_nil, List.mem_cons, List.mem_singleton] at hr
            rcases hr with rfl | rfl | hr
            · simp at he
            · simp at he
            · simp at hr
        | some e =>
            rw [h] at hr
            simp only [List.map_cons, List.map_nil, List.mem_cons, List.mem_singleton] at hr
            rcases hr with rfl | rfl | hr
            · simp at he
            · exact ⟨a, e, List.mem_cons_self a l, h, rfl⟩
            · simp at hr
      · obtain ⟨b, e, hb, hoe, hre⟩ := ih hr
        exact ⟨b, e, List.mem_cons_of_mem a hb, hoe, hre⟩

/-! ### Claim theorems -/

/-- C1: across every sequence of registration operations, the `Deleter`'s
`remote_assets` collection never contains two assets with the same
identifier, no matter how often or by which registration path an asset is
reached; and registering an already-present identifier leaves the state
unchanged. -/
theorem C1_registration_deduplicates (w : World) (ops : List Op) (sm : Bool) :
    idsNodup (runOps w ops { skip_missing := sm }).1 ∧
    ∀ (st : Deleter) (a : RemoteAsset),
      a.identifier ∈ st.remote_assets.map RemoteAsset.identifier → add_asset st a = st :=
  ⟨(runOps_inv w ops { skip_missing := sm } (initial_inv sm)).1,
   fun st a h => add_asset_of_mem st a h⟩

/-- Witness for C1: a concrete sequence reaching the asset `exA1` first by
URL and then again by path, and a concrete re-registration of an
already-present identifier. -/
theorem C1_registration_deduplicates_witness :
    idsNodup (runOps exWorld
      [Op.opUrl "https://u-assets",
       Op.opAsset "https://api.example" "000001" "draft" "sub-01/a.nwb"]
      { skip_missing := false }).1 ∧
    add_asset exBoundWithA1 ⟨"id1", "sub-01/renamed.nwb"⟩ = exBoundWithA1 :=
  ⟨(C1_registration_deduplicates exWorld
      [Op.opUrl "https://u-assets",
       Op.opAsset "https://api.example" "000001" "draft" "sub-01/a.nwb"] false).1,
   (C1_registration_deduplicates exWorld [] false).2 exBoundWithA1
      ⟨"id1", "sub-01/renamed.nwb"⟩ (by decide)⟩

/-- C3 counterexample: `is_same_url` identifies `"a"` and `"a//"` (Python
`rstrip` removes every trailing slash), while the claimed
remove-at-most-one-slash equality does not. -/
theorem C3_counterexample :
    is_same_url "a" "a//" = true ∧ spec_same_url_one "a" "a//" = false := by
  constructor
  · decide
  · decide

/-- C3 amended: `is_same_url` is true exactly when the two URLs agree after
removing all (not just one) trailing slashes from each side. -/
theorem C3_strip_all_trailing_slashes (url1 url2 : String) :
    is_same_url url1 url2 = true ↔
      String.mk (stripTrail url1.data) = String.mk (stripTrail url2.data) := by
  unfold is_same_url
  rw [rstripSlash_eq_stripTrail, rstripSlash_eq_stripTrail]
  exact beq_iff_eq

/-- C10: the `version_id` arguments of `register_asset` and
`register_asset_folder` are never read: two calls differing only in
`version_id` produce identical states and identical raised errors. -/
theorem C10_version_id_has_no_effect (w : World) (au di v1 v2 p : String)
    (st : Deleter) :
    register_asset w au di v1 p st = register_asset w au di v2 p st ∧
    register_asset_folder w au di v1 p st = register_asset_folder w au di v2 p st :=
  ⟨rfl, rfl⟩

/-- C2: on a `Deleter` already bound to a dandiset, every registration call
naming a different dandiset id on the same endpoint raises the
cross-dandiset `ValueError` and returns the state exactly unchanged. -/
theorem C2_mixing_error_state_unchanged (w : World) (st : Deleter)
    (c : DandiAPIClient) (d : RemoteDandiset) (au di v p fp n u : String)
    (pu : ParsedDandiURL) (hc : st.client = some c) (hd : st.dandiset = some d)
    (hsame : is_same_url c.api_url au = true) (hdiff : d.identifier ≠ di) :
    set_dandiset w au di st = (st, .error (.valueError multiDandisetMsg)) ∧
    register_dandiset w au di st = (st, some (.valueError multiDandisetMsg)) ∧
    register_asset w au di v p st = (st, some (.valueError multiDandisetMsg)) ∧
    register_asset_folder w au di v p st = (st, some (.valueError multiDandisetMsg)) ∧
    (pu.api_url = au → pu.dandiset_id = di →
      register_assets_url w u pu st = (st, some (.valueError multiDandisetMsg))) ∧
    (w.get_instance n = au → w.find_local_asset fp = .ok (di, p) →
      register_local_path_equivalent w n fp st =
        (st, some (.valueError multiDandisetMsg))) := by
  have hsd : set_dandiset w au di st = (st, .error (.valueError multiDandisetMsg)) := by
    unfold set_dandiset
    rw [hc, hd]
    simp [hsame, hdiff]
  refine ⟨hsd, ?_, ?_, ?_, ?_, ?_⟩
  · unfold register_dandiset
    rw [hsd]
  · unfold register_asset
    rw [hsd]
  · unfold register_asset_folder
    rw [hsd]
  · intro h1 h2
    unfold register_assets_url
    rw [h1, h2, hsd]
  · intro h1 h2
    unfold register_local_path_equivalent
    rw [h2, h1]
    simp only [hsd]

/-- Witness for C2 at the example bound state and the differing dandiset id
`000999`. -/
theorem C2_mixing_error_state_unchanged_witness :
    set_dandiset exWorld "https://api.example/" "000999" exBound =
      (exBound, .error (.valueError multiDandisetMsg)) ∧
    register_dandiset exWorld "https://api.example/" "000999" exBound =
      (exBound, some (.valueError multiDandisetMsg)) ∧
    register_asset exWorld "https://api.example/" "000999" "draft" "p" exBound =
      (exBound, some (.valueError multiDandisetMsg)) ∧
    register_asset_folder exWorld "https://api.example/" "000999" "draft" "p" exBound =
      (exBound, some (.valueError multiDandisetMsg)) := by
  have h := C2_mixing_error_state_unchanged exWorld exBound
    ⟨"https://api.example"⟩ exDandiset "https://api.example/" "000999" "draft" "p"
    "fp" "dandi" "u" exEmptyPU rfl rfl (by decide) (by decide)
  exact ⟨h.1, h.2.1, h.2.2.1, h.2.2.2.1⟩

/-- C9: with `skip_missing` on, a first registration naming a nonexistent
dandiset reports no error but leaves the client bound with the dandiset
still unset; on that half-bound state every subsequent registration on the
same endpoint raises AttributeError (from reading
`self.dandiset.identifier` with `dandiset` equal to `None`) instead of
being a no-op or a fresh bind. -/
theorem C9_half_bound_raises_attribute_error (w : World) (st : Deleter)
    (au di : String) (c : DandiAPIClient) (hc : st.client = none)
    (hd : st.dandiset = none) (hsk : st.skip_missing = true)
    (hmiss : w.get_dandiset (rstripSlash au) di = none) :
    (set_dandiset w au di st =
        ({ st with client := some ⟨rstripSlash au⟩ }, .ok false) ∧
      ({ st with client := some ⟨rstripSlash au⟩ } : Deleter).dandiset = none ∧
      register_dandiset w au di st =
        ({ st with client := some ⟨rstripSlash au⟩ }, none)) ∧
    (∀ (st2 : Deleter) (au2 di2 v p u : String) (pu : ParsedDandiURL),
      st2.client = some c → st2.dandiset = none →
      is_same_url c.api_url au2 = true →
      set_dandiset w au2 di2 st2 = (st2, .error .attributeError) ∧
      register_dandiset w au2 di2 st2 = (st2, some .attributeError) ∧
      register_asset w au2 di2 v p st2 = (st2, some .attributeError) ∧
      register_asset_folder w au2 di2 v p st2 = (st2, some .attributeError) ∧
      (pu.api_url = au2 → pu.dandiset_id = di2 →
        register_assets_url w u pu st2 = (st2, some .attributeError))) := by
  constructor
  · have hsd : set_dandiset w au di st =
        ({ st with client := some ⟨rstripSlash au⟩ }, .ok false) := by
      unfold set_dandiset
      rw [hc, hmiss, if_pos hsk]
    refine ⟨hsd, by simp [hd], ?_⟩
    unfold register_dandiset
    rw [hsd]
  · intro st2 au2 di2 v p u pu hc2 hd2 hsame2
    have hsd2 : set_dandiset w au2 di2 st2 = (st2, .error .attributeError) := by
      unfold set_dandiset
      rw [hc2, hd2]
      simp [hsame2]
    refine ⟨hsd2, ?_, ?_, ?_, ?_⟩
    · unfold register_dandiset
      rw [hsd2]
    · unfold register_asset
      rw [hsd2]
    · unfold register_asset_folder
      rw [hsd2]
    · intro h1 h2
      unfold register_assets_url
      rw [h1, h2, hsd2]

/-- Witness for C9: binding the nonexistent dandiset `000001` at the
unserved endpoint `https://api.other` with `skip_missing` on, then
registering again on the same endpoint. -/
theorem C9_half_bound_raises_attribute_error_witness :
    (set_dandiset exWorld "https://api.other" "000001" exFreshSkip =
        (exHalfBound, .ok false) ∧
      register_dandiset exWorld "https://api.other" "000001" exFreshSkip =
        (exHalfBound, none)) ∧
    (register_asset exWorld "https://api.other" "000001" "draft" "p" exHalfBound =
        (exHalfBound, some .attributeError) ∧
      register_asset_folder exWorld "https://api.other" "000001" "draft" "p"
        exHalfBound = (exHalfBound, some .attributeError)) := by
  have h := C9_half_bound_raises_attribute_error exWorld exFreshSkip
    "https://api.other" "000001" ⟨"https://api.other"⟩ rfl rfl rfl (by decide)
  have h2 := h.2 exHalfBound "https://api.other" "000001" "draft" "p" "u" exEmptyPU
    rfl rfl (by decide)
  exact ⟨⟨h.1.1, h.1.2.2⟩, ⟨h2.2.2.1, h2.2.2.2.1⟩⟩

/-- C7: a URL parsing to a whole-dandiset reference with an explicit version
makes `register_url` raise NotImplementedError and register nothing,
whatever the `skip_missing` setting; the same-shaped URL without an explicit
version sets whole-dataset deletion mode. -/
theorem C7_version_scoped_deletion_unsupported (w : World) (url : String)
    (st : Deleter) (pu : ParsedDandiURL) (hp : w.parse_dandi_url url = some pu)
    (hds : pu.isDandiset = true) :
    (∀ v, pu.version_id = some v →
      register_url w url st = (st, some (.notImplemented versionDeleteMsg))) ∧
    (pu.version_id = none → ∀ st2 : Deleter,
      set_dandiset w pu.api_url pu.dandiset_id st = (st2, .ok true) →
      register_url w url st = ({ st2 with deleting_dandiset := true }, none)) := by
  constructor
  · intro v hv
    unfold register_url
    rw [hp]
    simp [hds, hv]
  · intro hv st2 hb
    unfold register_url
    rw [hp]
    simp only [hds, if_pos, hv]
    unfold register_dandiset
    rw [hb]

/-- Witness for C7: the versioned dandiset URL fails; the unversioned one
sets dataset-deletion mode. -/
theorem C7_version_scoped_deletion_unsupported_witness :
    register_url exWorld "https://u-dsv" exFresh =
      (exFresh, some (.notImplemented versionDeleteMsg)) ∧
    register_url exWorld "https://u-ds" exFresh =
      ({ exBound with deleting_dandiset := true }, none) :=
  ⟨(C7_version_scoped_deletion_unsupported exWorld "https://u-dsv" exFresh exDsVerPU
      (by decide) (by decide)).1 "0.210831.2033" rfl,
   (C7_version_scoped_deletion_unsupported exWorld "https://u-ds" exFresh exDsPU
      (by decide) (by decide)).2 rfl exBound (by rfl)⟩

/-- C4 counterexample: on the bound example state, a URL-based registration
resolving to zero assets raises NotFound, but its message (`No assets found
for https://x`) does not name the dandiset id `000001`. -/
theorem C4_counterexample :
    register_assets_url exWorld "https://x" exEmptyPU exBound =
      (exBound, some (.notFound (urlNotFoundMsg "https://x"))) ∧
    strMentions (urlNotFoundMsg "https://x") "000001" = false := by
  constructor
  · rfl
  · decide

/-- C4 amended: with `skip_missing` off on a bound `Deleter`, registering a
missing asset path or an empty prefix raises NotFound with a message naming
both the missing target and the dandiset id, while registering a
zero-asset URL raises NotFound with a message naming only the URL. -/
theorem C4_not_found_messages (w : World) (st : Deleter) (c : DandiAPIClient)
    (d : RemoteDandiset) (au di v p fp u : String) (pu : ParsedDandiURL)
    (hsk : st.skip_missing = false) (hc : st.client = some c)
    (hd : st.dandiset = some d) (hsame : is_same_url c.api_url au = true)
    (hid : d.identifier = di) :
    (get_asset_by_path d p = none →
      register_asset w au di v p st =
        (st, some (.notFound (assetNotFoundMsg p di))) ∧
      strMentions (assetNotFoundMsg p di) p = true ∧
      strMentions (assetNotFoundMsg p di) di = true) ∧
    (get_assets_under d fp = [] →
      register_asset_folder w au di v fp st =
        (st, some (.notFound (folderNotFoundMsg fp di))) ∧
      strMentions (folderNotFoundMsg fp di) fp = true ∧
      strMentions (folderNotFoundMsg fp di) di = true) ∧
    (pu.api_url = au → pu.dandiset_id = di → pu.assets = [] →
      register_assets_url w u pu st =
        (st, some (.notFound (urlNotFoundMsg u))) ∧
      strMentions (urlNotFoundMsg u) u = true) := by
  have hsd : set_dandiset w au di st = (st, .ok true) := by
    unfold set_dandiset
    rw [hc, hd]
    simp [hsame, hid]
  refine ⟨?_, ?_, ?_⟩
  · intro hmiss
    refine ⟨?_, ?_, ?_⟩
    · unfold register_asset
      rw [hsd]
      simp only [hd, hmiss, hsk]
      simp
    · exact strMentions_of_data _ p ("Asset at path ".data ++ pyQuote.data)
        (pyQuote.data ++ (" not found in Dandiset ".data ++ di.data))
        (by simp [assetNotFoundMsg, pyRepr, String.data_append])
    · exact strMentions_of_data _ di
        ("Asset at path ".data ++ pyQuote.data ++ p.data ++ pyQuote.data ++
          " not found in Dandiset ".data) []
        (by simp [assetNotFoundMsg, pyRepr, String.data_append])
  · intro hmiss
    refine ⟨?_, ?_, ?_⟩
    · unfold register_asset_folder
      rw [hsd]
      simp only [hd, hmiss, hsk]
      simp
    · exact strMentions_of_data _ fp ("No assets under path ".data ++ pyQuote.data)
        (pyQuote.data ++ (" found in Dandiset ".data ++ di.data))
        (by simp [folderNotFoundMsg, pyRepr, String.data_append])
    · exact strMentions_of_data _ di
        ("No assets under path ".data ++ pyQuote.data ++ fp.data ++ pyQuote.data ++
          " found in Dandiset ".data) []
        (by simp [folderNotFoundMsg, pyRepr, String.data_append])
  · intro h1 h2 h3
    refine ⟨?_, ?_⟩
    · unfold register_assets_url
      rw [h1, h2, hsd]
      simp only [h3, hsk]
      simp
    · exact strMentions_of_data _ u ("No assets found for ".data) []
        (by simp [urlNotFoundMsg, String.data_append])

/-- Witness for C4 at the bound example state: the missing path
`missing.nwb`, the empty prefix `zzz/` and the zero-asset URL
`https://x`. -/
theorem C4_not_found_messages_witness :
    (register_asset exWorld "https://api.example" "000001" "draft" "missing.nwb"
        exBound = (exBound, some (.notFound (assetNotFoundMsg "missing.nwb" "000001"))) ∧
      strMentions (assetNotFoundMsg "missing.nwb" "000001") "missing.nwb" = true ∧
      strMentions (assetNotFoundMsg "missing.nwb" "000001") "000001" = true) ∧
    (register_asset_folder exWorld "https://api.example" "000001" "draft" "zzz/"
        exBound = (exBound, some (.notFound (folderNotFoundMsg "zzz/" "000001"))) ∧
      strMentions (folderNotFoundMsg "zzz/" "000001") "zzz/" = true ∧
      strMentions (folderNotFoundMsg "zzz/" "000001") "000001" = true) ∧
    (register_assets_url exWorld "https://x" exEmptyPU exBound =
        (exBound, some (.notFound (urlNotFoundMsg "https://x"))) ∧
      strMentions (urlNotFoundMsg "https://x") "https://x" = true) := by
  have h := C4_not_found_messages exWorld exBound ⟨"https://api.example"⟩ exDandiset
    "https://api.example" "000001" "draft" "missing.nwb" "zzz/" "https://x" exEmptyPU
    rfl rfl rfl (by decide) (by decide)
  exact ⟨h.1 (by decide), h.2.1 (by decide), h.2.2 rfl rfl rfl⟩

/-- C5 counterexample: with `skip_missing` on, a first registration of a
nonexistent dandiset is indeed silently skipped, but it leaves the client
bound with no dandiset; registering a (nonexistent) asset path on that
state raises AttributeError, so the claim that such registrations never
raise is false. -/
theorem C5_counterexample :
    (register_dandiset exWorld "https://api.other" "000001" exFreshSkip).2 = none ∧
    (register_dandiset exWorld "https://api.other" "000001" exFreshSkip).1 =
      exHalfBound ∧
    register_asset exWorld "https://api.other" "000001" "draft" "p" exHalfBound =
      (exHalfBound, some .attributeError) :=
  ⟨rfl, by decide, rfl⟩

/-- C5 amended: with `skip_missing` on, registering a nonexistent dandiset
on a fresh (client-unset) `Deleter` raises nothing and changes nothing
except binding the client, and on a properly bound `Deleter` registering a
missing path, an empty-match prefix or a zero-asset URL raises nothing and
changes nothing at all; the exception is the half-bound state (client set,
dandiset unset), on which later registrations raise AttributeError. -/
theorem C5_skip_missing_noop (w : World) (st : Deleter) (au di v p fp u : String)
    (pu : ParsedDandiURL) (hsk : st.skip_missing = true) :
    (st.client = none → w.get_dandiset (rstripSlash au) di = none →
      register_dandiset w au di st =
        ({ st with client := some ⟨rstripSlash au⟩ }, none) ∧
      register_asset w au di v p st =
        ({ st with client := some ⟨rstripSlash au⟩ }, none) ∧
      register_asset_folder w au di v fp st =
        ({ st with client := some ⟨rstripSlash au⟩ }, none)) ∧
    (∀ (c : DandiAPIClient) (d : RemoteDandiset),
      st.client = some c → st.dandiset = some d →
      is_same_url c.api_url au = true → d.identifier = di →
      (get_asset_by_path d p = none → register_asset w au di v p st = (st, none)) ∧
      (get_assets_under d fp = [] →
        register_asset_folder w au di v fp st = (st, none)) ∧
      (pu.api_url = au → pu.dandiset_id = di → pu.assets = [] →
        register_assets_url w u pu st = (st, none))) := by
  constructor
  · intro hc hmiss
    have hsd : set_dandiset w au di st =
        ({ st with client := some ⟨rstripSlash au⟩ }, .ok false) := by
      unfold set_dandiset
      rw [hc, hmiss, if_pos hsk]
    refine ⟨?_, ?_, ?_⟩
    · unfold register_dandiset
      rw [hsd]
    · unfold register_asset
      rw [hsd]
    · unfold register_asset_folder
      rw [hsd]
  · intro c d hc hd hsame hid
    have hsd : set_dandiset w au di st = (st, .ok true) := by
      unfold set_dandiset
      rw [hc, hd]
      simp [hsame, hid]
    refine ⟨?_, ?_, ?_⟩
    · intro hmiss
      unfold register_asset
      rw [hsd]
      simp [hd, hmiss, hsk]
    · intro hmiss
      unfold register_asset_folder
      rw [hsd]
      simp [hd, hmiss, hsk]
    · intro h1 h2 h3
      unfold register_assets_url
      rw [h1, h2, hsd]
      simp [h3, hsk]

/-- Witness for C5 amended: the fresh-state case at the unserved endpoint
and the bound case at the example dandiset. -/
theorem C5_skip_missing_noop_witness :
    (register_dandiset exWorld "https://api.other" "000001" exFreshSkip =
        (exHalfBound, none) ∧
      register_asset exWorld "https://api.other" "000001" "draft" "p" exFreshSkip =
        (exHalfBound, none)) ∧
    (register_asset exWorld "https://api.example" "000001" "draft" "missing.nwb"
        exBoundSkip = (exBoundSkip, none) ∧
      register_asset_folder exWorld "https://api.example" "000001" "draft" "zzz/"
        exBoundSkip = (exBoundSkip, none) ∧
      register_assets_url exWorld "https://x" exEmptyPU exBoundSkip =
        (exBoundSkip, none)) := by
  have ha := (C5_skip_missing_noop exWorld exFreshSkip "https://api.other" "000001"
    "draft" "p" "zzz/" "https://x" exEmptyPU rfl).1 rfl (by decide)
  have hb := (C5_skip_missing_noop exWorld exBoundSkip "https://api.example" "000001"
    "draft" "missing.nwb" "zzz/" "https://x" exEmptyPU rfl).2
    ⟨"https://api.example"⟩ exDandiset rfl rfl (by decide) (by decide)
  exact ⟨⟨by simpa using ha.1, by simpa using ha.2.1⟩,
    ⟨hb.1 (by decide), hb.2.1 (by decide), hb.2.2 rfl rfl rfl⟩⟩

/-- C6: when exactly one registered asset's delete call raises and the rest
succeed, debug execution yields N-1 `Deleted` records, exactly one `Error`
record carrying the failing asset's path and the `type: text` rendering of
its exception, and a `Deleting` record per asset (each deletion is
attempted); the execution itself is total and raises nothing. -/
theorem C6_one_failure_is_isolated (oracle : DeleteOracle) (st : Deleter)
    (hone : st.remote_assets.countP (fun a => (oracle a.identifier).isSome) = 1) :
    (debugRecords oracle st).countP (hasStatus "Deleted") =
      st.remote_assets.length - 1 ∧
    (debugRecords oracle st).countP (hasStatus "Error") = 1 ∧
    (debugRecords oracle st).countP (hasStatus "Deleting") =
      st.remote_assets.length ∧
    ∀ r ∈ debugRecords oracle st, r.status = "Error" →
      ∃ a e, a ∈ st.remote_assets ∧ oracle a.identifier = some e ∧
        r = ⟨a.path, "Error", some (excText e)⟩ := by
  have hperm := sortByPath_perm st.remote_assets
  have hco := recordsOf_counts oracle (sortByPath st.remote_assets)
  have hsome : (sortByPath st.remote_assets).countP
      (fun a => (oracle a.identifier).isSome) = 1 :=
    (hperm.countP_eq _).trans hone
  have hlen : (sortByPath st.remote_assets).length = st.remote_assets.length :=
    hperm.length_eq
  have hrec : debugRecords oracle st =
      ((sortByPath st.remote_assets).map (assetRecords oracle)).flatten := rfl
  have hnone : (sortByPath st.remote_assets).countP
      (fun a => (oracle a.identifier).isNone) = st.remote_assets.length - 1 := by
    have h1 := List.length_eq_countP_add_countP
      (fun a => (oracle a.identifier).isSome) (sortByPath st.remote_assets)
    have h2 : (sortByPath st.remote_assets).countP
        (fun a => decide ¬((oracle a.identifier).isSome = true)) =
        (sortByPath st.remote_assets).countP (fun a => (oracle a.identifier).isNone) := by
      apply List.countP_congr
      intro a _
      cases h : oracle a.identifier <;> simp [h]
    rw [h2, hsome] at h1
    rw [hlen] at h1
    omega
  refine ⟨?_, ?_, ?_, ?_⟩
  · rw [hrec, hco.2.1, hnone]
  · rw [hrec, hco.2.2, hsome]
  · rw [hrec, hco.1, hlen]
  · intro r hr he
    rw [hrec] at hr
    obtain ⟨a, e, ha, hoe, hre⟩ := error_record_source oracle _ r hr he
    exact ⟨a, e, (hperm.mem_iff).mp ha, hoe, hre⟩

/-- Witness for C6 at the two example assets with `exA2`'s deletion
failing. -/
theorem C6_one_failure_is_isolated_witness :
    (debugRecords exOracle exTwoAssets).countP (hasStatus "Deleted") =
      exTwoAssets.remote_assets.length - 1 ∧
    (debugRecords exOracle exTwoAssets).countP (hasStatus "Error") = 1 ∧
    (debugRecords exOracle exTwoAssets).countP (hasStatus "Deleting") =
      exTwoAssets.remote_assets.length ∧
    ∀ r ∈ debugRecords exOracle exTwoAssets, r.status = "Error" →
      ∃ a e, a ∈ exTwoAssets.remote_assets ∧ exOracle a.identifier = some e ∧
        r = ⟨a.path, "Error", some (excText e)⟩ :=
  C6_one_failure_is_isolated exOracle exTwoAssets (by decide)

/-- C8: on a non-empty request with `force` off, a declining confirmation
answer makes the `delete` entry point issue zero destructive calls and
return normally. -/
theorem C8_decline_issues_no_calls (w : World) (paths : List String)
    (inst_name : String) (dbg : Bool) (jobs : Option Nat) (sm : Bool) (st : Deleter)
    (hreg : registerAll w inst_name paths { skip_missing := sm } = (st, none))
    (hne : deleterBool st = true) :
    delete w false paths inst_name dbg jobs false sm = (st, none, []) := by
  have hinv : Inv st := by
    have h := registerAll_inv w inst_name paths { skip_missing := sm } (initial_inv sm)
    rw [hreg] at h
    exact h
  have hd : ∃ d, st.dandiset = some d := by
    rcases hds : st.dandiset with _ | d
    · have h2 := hinv.2 hds
      unfold deleterBool at hne
      rw [h2.1, h2.2] at hne
      simp at hne
    · exact ⟨d, rfl⟩
  obtain ⟨d, hd⟩ := hd
  unfold delete
  rw [hreg]
  simp [hne, confirm, hd]

/-- Witness for C8: the single asset URL registration declined at the
prompt. -/
theorem C8_decline_issues_no_calls_witness :
    delete exWorld false ["https://u-assets"] "dandi" false none false false =
      (exBoundWithA1, none, []) :=
  C8_decline_issues_no_calls exWorld ["https://u-assets"] "dandi" false none false
    exBoundWithA1 (by rfl) (by decide)
